import Mathlib

/-!
# CarbonWise — verification of the checkpointed incremental-insight engine

Shallow embedding of the advice pipeline implemented in
`src/frontend/website/src/components/Dashboard.js` (the `AdviceButton`
component and its helpers `generateLocalAdvice`, `saveInsightsToFirestore`,
`handleGetAdvice`), together with proofs of the spec's testable properties.

Modelling conventions:
* JavaScript numbers (carbon-impact scores) are modelled as rationals `ℚ`;
  the pipeline only adds, divides and compares them.
* Timestamps are modelled as integers ordered like the parsed date values the
  code compares with `new Date(x) > new Date(y)`; an absent (or falsy)
  timestamp field is `Option.none`.
* The Firestore user document is modelled by the two fields this pipeline
  reads and writes: the `previousAdvice` mapping (an association list from
  checkpoint timestamp to the serialized advice blob, most recent write
  first) and the `mostRecentInsightsTimestamp` pointer.
* `JSON.stringify`/`JSON.parse` on the advice record are modelled by an
  executable renderer and prefix-consuming parser for the exact object shape
  the pipeline stores (`insights`, `recommendations`, `summary`, in that
  key order, as `JSON.stringify` emits for the object literals built by the
  code), with the string escapes relevant to these fields.
-/

namespace CarbonWise

/-! ## JavaScript truthiness helpers

The source reads fields with `a || b` chains; `||` returns the right operand
when the left one is absent, the empty string, or the number `0`. -/

/-- `a || b` for an optional string field: an absent or empty string falls
through to the default. -/
def jsOrStr (a : Option String) (b : String) : String :=
  match a with
  | some s => if s = "" then b else s
  | none => b

/-- `a || b` for an optional numeric field: an absent field or the (falsy)
number `0` falls through to the default. -/
def jsOrNum (a : Option ℚ) (b : ℚ) : ℚ :=
  match a with
  | some x => if x = 0 then b else x
  | none => b

/-! ## Data model -/

/-- A raw user action as the dashboard hands it to the advice pipeline.  Every
field the pipeline reads is optional, mirroring the defensive `a || b || c`
chains in `handleGetAdvice`.  (`typ` embeds the source's `type` field, which is
a reserved word in Lean.) -/
structure Action where
  action : Option String
  description : Option String
  name : Option String
  sustainabilityScore : Option ℚ
  score : Option ℚ
  carbonImpact : Option ℚ
  timestamp : Option Int
  date : Option Int
  category : Option String
  typ : Option String
  deriving DecidableEq, Repr

/-- A formatted action, the output of the `newActions.map(...)` normalisation
step: every field defaulted and present. -/
structure FormattedAction where
  action : String
  sustainabilityScore : ℚ
  timestamp : Int
  category : String
  deriving DecidableEq, Repr

/-- The structured advice record: ordered insights, ordered recommendations
and a free-text summary. -/
structure AdviceRecord where
  insights : List String
  recommendations : List String
  summary : String
  deriving DecidableEq, Repr

/-- What the pipeline can hold in its `advice` state: either a structured
record, or the raw-text wrap `{ message, insights }` built when the remote
response body fails to parse as JSON. -/
inductive AdviceData where
  | record (r : AdviceRecord)
  | raw (message : String) (insights : List String)
  deriving DecidableEq, Repr

/-- The slice of the Firestore user document this pipeline reads and writes.
`previousAdvice` maps checkpoint timestamps to serialized advice blobs;
lookup takes the first matching key, so prepending models the JS spread
`{...prev, [t]: blob}` overwrite. -/
structure UserDoc where
  previousAdvice : List (Int × String)
  mostRecentInsightsTimestamp : Option Int
  deriving DecidableEq, Repr

/-! ## Checkpoint selector (Dashboard.js lines 672–681) -/

/-- `action.timestamp || action.date`: the timestamp field the filter reads,
falling back to `date`, absent when both are missing. -/
def tsOrDate (a : Action) : Option Int :=
  match a.timestamp with
  | some t => some t
  | none => a.date

/-- The checkpoint selection step: with no checkpoint all actions pass;
with a checkpoint, keep the actions whose (fallback-resolved) timestamp is
strictly after it, and drop actions with no timestamp at all
(`if (!actionTimestamp) return false`). -/
def selectNewActions (userActions : List Action)
    (mostRecentInsightsTimestamp : Option Int) : List Action :=
  match mostRecentInsightsTimestamp with
  | none => userActions
  | some lastInsightsDate =>
    userActions.filter (fun action =>
      match tsOrDate action with
      | none => false
      | some t => decide (t > lastInsightsDate))

/-- The `newActions.map(action => ({...}))` normalisation (lines 730–735).
`now` stands for the `new Date().toISOString()` default timestamp. -/
def formatAction (now : Int) (a : Action) : FormattedAction :=
  { action := jsOrStr a.action (jsOrStr a.description (jsOrStr a.name "Unknown action"))
  , sustainabilityScore :=
      jsOrNum a.sustainabilityScore (jsOrNum a.score (jsOrNum a.carbonImpact 0))
  , timestamp := (tsOrDate a).getD now
  , category := jsOrStr a.category (jsOrStr a.typ "General") }

/-! ## Aggregator (Dashboard.js lines 738–741) -/

/-- `formattedActions.reduce((sum, a) => sum + a.sustainabilityScore, 0)`. -/
def totalScore (formattedActions : List FormattedAction) : ℚ :=
  formattedActions.foldl (fun sum a => sum + a.sustainabilityScore) 0

/-- `formattedActions.length > 0 ? totalScore / formattedActions.length : 0`. -/
def avgScore (formattedActions : List FormattedAction) : ℚ :=
  if formattedActions.length > 0 then
    totalScore formattedActions / formattedActions.length
  else 0

/-- `formattedActions.filter(a => a.sustainabilityScore > 50)`. -/
def highImpactActions (formattedActions : List FormattedAction) : List FormattedAction :=
  formattedActions.filter (fun a => decide (a.sustainabilityScore > 50))

/-- `formattedActions.filter(a => a.sustainabilityScore < 25)`. -/
def lowImpactActions (formattedActions : List FormattedAction) : List FormattedAction :=
  formattedActions.filter (fun a => decide (a.sustainabilityScore < 25))

/-- The remainder bucket of the high/low partition: actions with
`25 ≤ impactScore ≤ 50`, belonging to neither fixed-threshold subset. -/
def neitherImpactActions (formattedActions : List FormattedAction) : List FormattedAction :=
  formattedActions.filter (fun a =>
    decide (25 ≤ a.sustainabilityScore) && decide (a.sustainabilityScore ≤ 50))

/-! ## Serialization of advice records

The pipeline persists advice with `JSON.stringify(adviceData)` and reads it
back with `JSON.parse(...)`.  Modelled here as an executable renderer and a
prefix-consuming parser for the exact object shape the pipeline writes:
`{"insights":[...],"recommendations":[...],"summary":"..."}` — the key order
`JSON.stringify` emits for the object literals the code builds — with the
string escapes relevant to such fields (`\"`, `\\`, `\n`, `\t`, `\r`). -/

/-- One escaped character of a JSON string literal. -/
def escChar (c : Char) : List Char :=
  if c = '"' then ['\\', '"']
  else if c = '\\' then ['\\', '\\']
  else if c = '\n' then ['\\', 'n']
  else if c = '\t' then ['\\', 't']
  else if c = '\r' then ['\\', 'r']
  else [c]

/-- Escape the body of a JSON string literal. -/
def escapeChars : List Char → List Char
  | [] => []
  | c :: rest => escChar c ++ escapeChars rest

/-- Render a JSON string literal, quotes included. -/
def renderString (s : List Char) : List Char :=
  '"' :: (escapeChars s ++ ['"'])

/-- Undo one escape character (the inverse of `escChar` on its two-character
outputs). -/
def unesc (c : Char) : Option Char :=
  if c = '"' then some '"'
  else if c = '\\' then some '\\'
  else if c = 'n' then some '\n'
  else if c = 't' then some '\t'
  else if c = 'r' then some '\r'
  else none

/-- Parse the body of a JSON string literal up to its closing quote, returning
the decoded characters and the unconsumed tail.  `esc` records whether a
backslash is pending. -/
def pStr (esc : Bool) : List Char → Option (List Char × List Char)
  | [] => none
  | c :: rest =>
    if esc then
      match unesc c with
      | none => none
      | some u =>
        match pStr false rest with
        | none => none
        | some (s, r) => some (u :: s, r)
    else if c = '"' then some ([], rest)
    else if c = '\\' then pStr true rest
    else
      match pStr false rest with
      | none => none
      | some (s, r) => some (c :: s, r)

/-- Parse a complete JSON string literal off the front of the input. -/
def parseStringLit : List Char → Option (String × List Char)
  | '"' :: rest =>
    match pStr false rest with
    | none => none
    | some (s, r) => some (String.mk s, r)
  | _ => none

theorem pStr_length : ∀ (l : List Char) (esc : Bool) (s r : List Char),
    pStr esc l = some (s, r) → r.length < l.length := by
  intro l
  induction l with
  | nil => intro esc s r h; simp [pStr] at h
  | cons c rest ih =>
    intro esc s r h
    by_cases hesc : esc
    · subst hesc
      simp only [pStr] at h
      cases hu : unesc c with
      | none => rw [hu] at h; simp at h
      | some u =>
        rw [hu] at h
        cases hp : pStr false rest with
        | none => rw [hp] at h; simp at h
        | some pr =>
          obtain ⟨s', r'⟩ := pr
          rw [hp] at h
          simp only [Option.some.injEq, Prod.mk.injEq] at h
          obtain ⟨hs, hr⟩ := h
          have := ih false _ _ hp
          simp only [List.length_cons]
          omega
    · simp only [Bool.not_eq_true] at hesc
      subst hesc
      simp only [pStr, if_false, Bool.false_eq_true] at h
      by_cases hq : c = '"'
      · rw [if_pos hq] at h
        simp only [Option.some.injEq, Prod.mk.injEq] at h
        simp [← h.2]
      · rw [if_neg hq] at h
        by_cases hb : c = '\\'
        · rw [if_pos hb] at h
          have := ih true s r h
          simp only [List.length_cons]
          omega
        · rw [if_neg hb] at h
          cases hp : pStr false rest with
          | none => rw [hp] at h; simp at h
          | some pr =>
            obtain ⟨s', r'⟩ := pr
            rw [hp] at h
            simp only [Option.some.injEq, Prod.mk.injEq] at h
            obtain ⟨hs, rfl⟩ := h
            have := ih false _ _ hp
            simp only [List.length_cons]
            omega

theorem parseStringLit_length {l : List Char} {s : String} {r : List Char}
    (h : parseStringLit l = some (s, r)) : r.length < l.length := by
  match l with
  | [] => simp [parseStringLit] at h
  | c :: rest =>
    by_cases hq : c = '"'
    · subst hq
      simp only [parseStringLit] at h
      cases hp : pStr false rest with
      | none => rw [hp] at h; simp at h
      | some pr =>
        obtain ⟨s', r'⟩ := pr
        rw [hp] at h
        simp only [Option.some.injEq, Prod.mk.injEq] at h
        obtain ⟨hs, rfl⟩ := h
        have := pStr_length rest false _ _ hp
        simp only [List.length_cons]
        omega
    · rw [show parseStringLit (c :: rest) = none from by
        unfold parseStringLit
        split
        · rename_i heq; injection heq with h1 _; exact absurd h1 hq
        · rfl] at h
      simp at h

theorem pStr_escape (s : List Char) (rest : List Char) :
    pStr false (escapeChars s ++ '"' :: rest) = some (s, rest) := by
  induction s with
  | nil => simp [escapeChars, pStr]
  | cons c s ih =>
    by_cases h1 : c = '"'
    · subst h1; simp [escapeChars, escChar, pStr, unesc, ih]
    · by_cases h2 : c = '\\'
      · subst h2; simp [escapeChars, escChar, pStr, unesc, ih]
      · by_cases h3 : c = '\n'
        · subst h3; simp [escapeChars, escChar, pStr, unesc, ih]
        · by_cases h4 : c = '\t'
          · subst h4; simp [escapeChars, escChar, pStr, unesc, ih]
          · by_cases h5 : c = '\r'
            · subst h5; simp [escapeChars, escChar, pStr, unesc, ih]
            · simp [escapeChars, escChar, pStr, unesc, h1, h2, h3, h4, h5, ih]

theorem parseStringLit_render (s : String) (rest : List Char) :
    parseStringLit (renderString s.toList ++ rest) = some (s, rest) := by
  show parseStringLit (('"' :: (escapeChars s.toList ++ ['"'])) ++ rest) = some (s, rest)
  simp only [List.cons_append, List.append_assoc, List.singleton_append]
  simp only [parseStringLit, pStr_escape]
  cases s
  rfl

/-- Render a JSON array of strings, commas between elements. -/
def renderElems : List String → List Char
  | [] => []
  | [s] => renderString s.toList
  | s :: rest => renderString s.toList ++ (',' :: renderElems rest)

/-- Render a complete JSON array of strings, brackets included. -/
def renderArr (l : List String) : List Char :=
  '[' :: (renderElems l ++ [']'])

/-- Parse the comma-separated elements of a non-empty JSON string array,
up to and including the closing bracket. -/
def parseArrItems (l : List Char) : Option (List String × List Char) :=
  match h : parseStringLit l with
  | none => none
  | some (s, ',' :: r2) =>
    match parseArrItems r2 with
    | none => none
    | some (ss, r3) => some (s :: ss, r3)
  | some (s, ']' :: r2) => some ([s], r2)
  | some _ => none
termination_by l.length
decreasing_by
  have := parseStringLit_length h
  simp only [List.length_cons] at this
  omega

/-- Parse a complete JSON array of strings off the front of the input. -/
def parseArr : List Char → Option (List String × List Char)
  | '[' :: ']' :: r => some ([], r)
  | '[' :: rest => parseArrItems rest
  | _ => none

theorem parseArrItems_close {l : List Char} {s : String} {rest : List Char}
    (hps : parseStringLit l = some (s, ']' :: rest)) :
    parseArrItems l = some ([s], rest) := by
  rw [parseArrItems]
  split
  · rename_i heq; rw [hps] at heq; cases heq
  · rename_i s1 r2 heq; rw [hps] at heq; simp at heq
  · rename_i s1 r2 heq; rw [hps] at heq
    simp only [Option.some.injEq, Prod.mk.injEq, List.cons.injEq] at heq
    obtain ⟨h1, h2, h3⟩ := heq
    subst h1; subst h3; rfl
  · rename_i val hne1 hne2 heq
    rw [hps] at heq
    injection heq with h1
    exact (hne2 s rest h1.symm).elim

theorem parseArrItems_comma {l r2 r3 : List Char} {s : String} {ss : List String}
    (hps : parseStringLit l = some (s, ',' :: r2))
    (hrec : parseArrItems r2 = some (ss, r3)) :
    parseArrItems l = some (s :: ss, r3) := by
  rw [parseArrItems]
  split
  · rename_i heq; rw [hps] at heq; cases heq
  · rename_i s1 r2' heq; rw [hps] at heq
    simp only [Option.some.injEq, Prod.mk.injEq, List.cons.injEq] at heq
    obtain ⟨h1, h2, h3⟩ := heq
    subst h1; subst h3
    rw [hrec]
  · rename_i s1 r2' heq; rw [hps] at heq; simp at heq
  · rename_i val hne1 hne2 heq
    rw [hps] at heq
    injection heq with h1
    exact (hne1 s r2 h1.symm).elim

theorem parseArrItems_render (ss : List String) (s : String) (rest : List Char) :
    parseArrItems (renderElems (s :: ss) ++ ']' :: rest) = some (s :: ss, rest) := by
  induction ss generalizing s with
  | nil =>
    apply parseArrItems_close
    show parseStringLit (renderString s.toList ++ ']' :: rest) = some (s, ']' :: rest)
    exact parseStringLit_render s (']' :: rest)
  | cons s' ss ih =>
    have hshape : renderElems (s :: s' :: ss) ++ ']' :: rest
        = renderString s.toList ++ (',' :: (renderElems (s' :: ss) ++ ']' :: rest)) := by
      show (renderString s.toList ++ (',' :: renderElems (s' :: ss))) ++ ']' :: rest = _
      simp [List.append_assoc]
    rw [hshape]
    exact parseArrItems_comma (parseStringLit_render s _) (ih s')

theorem parseArr_render (ss : List String) (rest : List Char) :
    parseArr (renderArr ss ++ rest) = some (ss, rest) := by
  cases ss with
  | nil => simp [renderArr, renderElems, parseArr]
  | cons s ss =>
    have hexp : renderArr (s :: ss) ++ rest
        = '[' :: (renderElems (s :: ss) ++ ']' :: rest) := by
      simp [renderArr, List.append_assoc]
    rw [hexp]
    have hq : ∀ l r, renderElems (s :: ss) = '"' :: l ++ r → True := fun _ _ _ => trivial
    have hhead : ∃ tl, renderElems (s :: ss) = '"' :: tl := by
      cases ss with
      | nil => exact ⟨escapeChars s.toList ++ ['"'], by simp [renderElems, renderString]⟩
      | cons a b =>
        exact ⟨(escapeChars s.toList ++ ['"']) ++ (',' :: renderElems (a :: b)), by
          simp [renderElems, renderString]⟩
    obtain ⟨tl, htl⟩ := hhead
    rw [htl]
    show parseArr ('[' :: '"' :: (tl ++ ']' :: rest)) = some (s :: ss, rest)
    rw [show parseArr ('[' :: '"' :: (tl ++ ']' :: rest))
          = parseArrItems ('"' :: (tl ++ ']' :: rest)) from rfl]
    rw [show ('"' : Char) :: (tl ++ ']' :: rest) = ('"' :: tl) ++ ']' :: rest from rfl]
    rw [← htl]
    exact parseArrItems_render ss s rest

/-- Render the serialized advice object, mirroring
`JSON.stringify({insights, recommendations, summary})`. -/
def renderRecord (r : AdviceRecord) : List Char :=
  "\x7b\"insights\":".toList ++ (renderArr r.insights
    ++ (",\"recommendations\":".toList ++ (renderArr r.recommendations
    ++ (",\"summary\":".toList ++ (renderString r.summary.toList ++ "\x7d".toList)))))

/-- `JSON.stringify(adviceData)` for a structured advice record (line 621). -/
def stringifyAdvice (r : AdviceRecord) : String :=
  String.mk (renderRecord r)

/-- Consume an expected literal character sequence off the front of the
input. -/
def expectLit : List Char → List Char → Option (List Char)
  | [], l => some l
  | _ :: _, [] => none
  | p :: ps, c :: l => if c = p then expectLit ps l else none

theorem expectLit_self (p : List Char) (r : List Char) :
    expectLit p (p ++ r) = some r := by
  induction p with
  | nil => rfl
  | cons c p ih => simp [expectLit, ih]

/-- Parse the serialized advice object, returning the record and the
unconsumed tail. -/
def parseRecord (l : List Char) : Option (AdviceRecord × List Char) :=
  (expectLit "\x7b\"insights\":".toList l).bind fun l1 =>
  (parseArr l1).bind fun insL2 =>
  (expectLit ",\"recommendations\":".toList insL2.2).bind fun l3 =>
  (parseArr l3).bind fun recsL4 =>
  (expectLit ",\"summary\":".toList recsL4.2).bind fun l5 =>
  (parseStringLit l5).bind fun summL6 =>
  (expectLit "\x7d".toList summL6.2).bind fun l7 =>
  some ({ insights := insL2.1, recommendations := recsL4.1, summary := summL6.1 }, l7)

/-- `JSON.parse` of a stored advice blob, specialised to the record shape the
pipeline writes: succeeds only when the whole blob is one serialized advice
object. -/
def parseAdviceString (s : String) : Option AdviceRecord :=
  match parseRecord s.toList with
  | some (r, []) => some r
  | _ => none

theorem parseRecord_render (r : AdviceRecord) (rest : List Char) :
    parseRecord (renderRecord r ++ rest) = some (r, rest) := by
  unfold parseRecord
  rw [show renderRecord r ++ rest
        = "\x7b\"insights\":".toList ++ (renderArr r.insights
          ++ (",\"recommendations\":".toList ++ (renderArr r.recommendations
          ++ (",\"summary\":".toList ++ (renderString r.summary.toList
          ++ ("\x7d".toList ++ rest)))))) from by
    simp [renderRecord, List.append_assoc]]
  rw [expectLit_self]
  simp only [Option.some_bind]
  rw [parseArr_render]
  simp only [Option.some_bind]
  rw [expectLit_self]
  simp only [Option.some_bind]
  rw [parseArr_render]
  simp only [Option.some_bind]
  rw [expectLit_self]
  simp only [Option.some_bind]
  rw [parseStringLit_render]
  simp only [Option.some_bind]
  rw [expectLit_self]
  simp only [Option.some_bind]

/-- Round-trip at the string level: parsing a stringified advice record gives
back the record, all three fields intact. -/
theorem parseAdviceString_stringify (r : AdviceRecord) :
    parseAdviceString (stringifyAdvice r) = some r := by
  unfold parseAdviceString stringifyAdvice
  rw [show (String.mk (renderRecord r)).toList = renderRecord r from rfl]
  rw [show renderRecord r = renderRecord r ++ [] from (List.append_nil _).symm]
  rw [parseRecord_render]

/-! ## Number formatting -/

/-- `x.toFixed(1)`: one-decimal rendering, rounding half toward `+∞` as the
`toFixed` specification picks the larger candidate at a tie. -/
def toFixed1 (q : ℚ) : String :=
  let n : Int := Rat.floor (q * 10 + 1 / 2)
  (if n < 0 then "-" else "") ++ toString (n.natAbs / 10) ++ "." ++ toString (n.natAbs % 10)

/-- JavaScript template-literal rendering of a number.  Exact for the integral
scores the store holds; a non-integral rational is rendered `num/den` as a
stand-in (no claim inspects that case). -/
def jsNumRepr (q : ℚ) : String :=
  if q.den = 1 then toString q.num else toString q.num ++ "/" ++ toString q.den

/-! ## Local fallback advice generator (Dashboard.js lines 555–599)

Translated statement by statement from `generateLocalAdvice`.  The JS
expression `highImpactActions[0].action` throws if the array is empty;
that partial access is embedded as the `Option`-valued `[0]?` bind, so the
function returns `none` exactly when the JS would throw. -/

def generateLocalAdvice (actions : List FormattedAction) (totalScore avgScore : ℚ)
    (highImpactActions lowImpactActions : List FormattedAction) : Option AdviceRecord := do
  let highInsights ←
    if highImpactActions.length > 0 then do
      let top ← highImpactActions[0]?
      pure [ "You have " ++ toString highImpactActions.length ++ " high-impact action"
               ++ (if highImpactActions.length > 1 then "s" else "")
               ++ " with carbon scores above 50 kg CO₂. Focus on reducing these first for maximum impact."
           , "Top concern: \"" ++ top.action ++ "\" has a carbon impact of "
               ++ jsNumRepr top.sustainabilityScore ++ " kg CO₂." ]
    else pure []
  let lowInsights :=
    if lowImpactActions.length > 0 then
      [ "Great job! You have " ++ toString lowImpactActions.length ++ " low-impact action"
          ++ (if lowImpactActions.length > 1 then "s" else "")
          ++ " with carbon scores below 25 kg CO₂." ]
    else []
  let transportationActions := actions.filter (fun a => a.category == "Transportation")
  let transportInsights :=
    if transportationActions.length > 0 then
      let transportScore :=
        transportationActions.foldl (fun sum a => sum + a.sustainabilityScore) 0
      [ "Transportation accounts for " ++ toFixed1 (transportScore / totalScore * 100)
          ++ "% of your total carbon impact." ]
    else []
  let avgInsights :=
    [ "Your average carbon impact per action is " ++ toFixed1 avgScore ++ " kg CO₂." ]
  let insights := highInsights ++ lowInsights ++ transportInsights ++ avgInsights
  let transportRecs :=
    if highImpactActions.any (fun a => a.category == "Transportation") then
      [ "Consider using public transportation, cycling, or walking instead of driving. These alternatives can reduce your transportation carbon footprint by 60-80%." ]
    else []
  let energyRecs :=
    if highImpactActions.any (fun a => a.category == "Energy") then
      [ "Optimize your energy usage: turn off lights when not in use, use energy-efficient appliances, and consider renewable energy sources." ]
    else []
  let foodRecs :=
    if actions.any (fun a => a.category == "Food" && decide (a.sustainabilityScore > 20)) then
      [ "Incorporate more plant-based meals into your diet. Plant-based foods typically have a much lower carbon footprint than meat and dairy." ]
    else []
  let keepRecs :=
    [ "Continue your positive actions like composting, using reusable items, and choosing sustainable transportation options." ]
  let goalRecs :=
    [ "Set a goal to reduce your average carbon impact per action from " ++ toFixed1 avgScore
        ++ " kg CO₂ to below " ++ toFixed1 (avgScore * 0.7) ++ " kg CO₂ over the next month." ]
  let recommendations := transportRecs ++ energyRecs ++ foodRecs ++ keepRecs ++ goalRecs
  let summary :=
    "Based on " ++ toString actions.length ++ " tracked actions, you have a total carbon impact of "
      ++ toFixed1 totalScore ++ " kg CO₂. "
      ++ (if highImpactActions.length > 0 then
            "Focus on reducing high-impact activities, particularly in transportation and energy usage."
          else
            "Continue your sustainable practices and look for additional opportunities to reduce your carbon footprint.")
  pure { insights := insights.take 5
       , recommendations := recommendations.take 5
       , summary := summary }

/-! ## Persistence (saveInsightsToFirestore, Dashboard.js lines 608–636) -/

/-- `JSON.stringify(adviceData)` for either shape the pipeline can hold:
the structured record, or the raw-text wrap `{ message, insights }` built on a
remote parse failure (keys in the insertion order the code uses). -/
def stringifyData : AdviceData → String
  | AdviceData.record r => stringifyAdvice r
  | AdviceData.raw msg ins =>
    String.mk ("\x7b\"message\":".toList
      ++ (renderString msg.toList
      ++ (",\"insights\":".toList ++ (renderArr ins ++ "\x7d".toList))))

/-- The merge-write of `saveInsightsToFirestore`: when the user document
exists, store the blob under the fresh timestamp key inside `previousAdvice`
(the JS spread `{...prev, [timestamp]: blob}`) and advance
`mostRecentInsightsTimestamp` to that same timestamp.  When the document is
missing (or the read failed) nothing is written. -/
def saveInsightsToFirestore (store : Option UserDoc) (now : Int)
    (adviceData : AdviceData) : Option UserDoc :=
  match store with
  | none => none
  | some d =>
    some { previousAdvice := (now, stringifyData adviceData) :: d.previousAdvice
         , mostRecentInsightsTimestamp := some now }

/-! ## Remote response handling (Dashboard.js lines 803–828) -/

/-- The modelled outcome of the single generative-service call: a non-2xx
response (which makes the code `throw` into the local-fallback `catch`), or a
2xx response whose extracted candidate text is `body`. -/
inductive RemoteResponse where
  | httpError : RemoteResponse
  | ok : String → RemoteResponse
  deriving DecidableEq, Repr

/-- Split the input at the first occurrence of `sep`, returning the part
before it and the part after it. -/
def breakOn (sep : List Char) : List Char → Option (List Char × List Char)
  | [] => if sep.isEmpty then some ([], []) else none
  | c :: rest =>
    if sep.isPrefixOf (c :: rest) then some ([], (c :: rest).drop sep.length)
    else
      match breakOn sep rest with
      | none => none
      | some (pre, post) => some (c :: pre, post)

/-- Leading and trailing whitespace removed, modelling `String.prototype.trim`. -/
def trimChars (l : List Char) : List Char :=
  ((l.dropWhile Char.isWhitespace).reverse.dropWhile Char.isWhitespace).reverse

/-- `s.trim()`. -/
def jsTrim (s : String) : String := String.mk (trimChars s.toList)

/-- `s.split(sep)` for a one-character separator. -/
def splitOnChar (sep : Char) : List Char → List (List Char)
  | [] => [[]]
  | c :: rest =>
    if c = sep then [] :: splitOnChar sep rest
    else
      match splitOnChar sep rest with
      | [] => [[c]]
      | h :: t => (c :: h) :: t

/-- Extract the contents of the first ` ```tag … ``` ` code fence, modelling
the regex `/```tag\s*([\s\S]*?)\s*```/` (the surrounding-whitespace trim is
applied by the caller's `.trim()`). -/
def extractFenced (tag : String) (s : String) : Option String :=
  match breakOn ("```" ++ tag).toList s.toList with
  | none => none
  | some (_, after) =>
    match breakOn "```".toList after with
    | none => none
    | some (inner, _) => some (String.mk inner)

/-- `jsonMatch ? jsonMatch[1] : responseText`: prefer a ` ```json ` fence,
then a bare ` ``` ` fence, else the raw response text. -/
def extractJsonText (responseText : String) : String :=
  match extractFenced "json" responseText with
  | some inner => inner
  | none =>
    match extractFenced "" responseText with
    | some inner => inner
    | none => responseText

/-- The raw-text wrap built when `JSON.parse` fails: the first five non-blank
lines of the response become the `insights` list
(`responseText.split('\n').filter(line => line.trim().length > 0).slice(0, 5)`). -/
def messageInsights (responseText : String) : List String :=
  (((splitOnChar '\n' responseText.toList).map String.mk).filter
    (fun line => decide ((jsTrim line).length > 0))).take 5

/-! ## Previous-advice lookup (Dashboard.js lines 683–727) -/

/-- The greatest timestamp key of the advice mapping, as selected by
`Object.keys(previousAdvice).sort().reverse()[0]` (timestamps are ISO-8601
strings, so lexicographic order is chronological order). -/
def maxKey : List (Int × String) → Option Int
  | [] => none
  | (k, _) :: rest =>
    match maxKey rest with
    | none => some k
    | some m => some (max k m)

/-- The previous advice surfaced on the "nothing new" path: the blob under the
exact checkpoint key, or, when that key is missing, the blob under the
greatest key; a blob that fails to parse surfaces no advice. -/
def priorAdviceFor (d : UserDoc) (ckpt : Int) : Option AdviceRecord :=
  match d.previousAdvice.lookup ckpt with
  | some blob => parseAdviceString blob
  | none =>
    match maxKey d.previousAdvice with
    | some k =>
      match d.previousAdvice.lookup k with
      | some blob => parseAdviceString blob
      | none => none
    | none => none

/-! ## The advice pipeline (handleGetAdvice, Dashboard.js lines 638–851) -/

/-- `'No user actions available. Please record some actions first.'` -/
def noActionsMsg : String :=
  "No user actions available. Please record some actions first."

/-- `'No new actions since your last insights. Add some new actions to get updated insights!'` -/
def noNewActionsMsg : String :=
  "No new actions since your last insights. Add some new actions to get updated insights!"

/-- `'Failed to fetch personalized advice. Please try again.'` -/
def fallbackFailedMsg : String :=
  "Failed to fetch personalized advice. Please try again."

/-- The observable outcome of one `handleGetAdvice` invocation: the advice
put into component state (`setAdvice`), the message put into the error state
(`setError`), and the user document after any persisting write. -/
structure PipelineResult where
  advice : Option AdviceData
  errorMsg : Option String
  store : Option UserDoc
  deriving DecidableEq, Repr

/-- One invocation of `handleGetAdvice`, as a function of its inputs: the
current action list, the user document read from the store (`none` when the
document is missing or the read fails), whether `REACT_APP_GEMINI_API_KEY` is
configured, the remote response, and the wall-clock timestamp `now` used both
as the formatting default and as the checkpoint key of the persisting write. -/
def handleGetAdvice (userActions : List Action) (store : Option UserDoc)
    (hasApiKey : Bool) (resp : RemoteResponse) (now : Int) : PipelineResult :=
  if userActions.length = 0 then
    { advice := none, errorMsg := some noActionsMsg, store := store }
  else
    let mostRecentInsightsTimestamp :=
      store.bind (fun d => d.mostRecentInsightsTimestamp)
    let newActions := selectNewActions userActions mostRecentInsightsTimestamp
    if newActions.length = 0 then
      match mostRecentInsightsTimestamp with
      | some t =>
        { advice := (store.bind (fun d => priorAdviceFor d t)).map AdviceData.record
        , errorMsg := some noNewActionsMsg, store := store }
      | none =>
        { advice := none, errorMsg := some noActionsMsg, store := store }
    else
      let formattedActions := newActions.map (formatAction now)
      let total := totalScore formattedActions
      let avg := avgScore formattedActions
      let high := highImpactActions formattedActions
      let low := lowImpactActions formattedActions
      if !hasApiKey then
        match generateLocalAdvice formattedActions total avg high low with
        | some localAdvice =>
          { advice := some (AdviceData.record localAdvice), errorMsg := none
          , store := saveInsightsToFirestore store now (AdviceData.record localAdvice) }
        | none => { advice := none, errorMsg := some fallbackFailedMsg, store := store }
      else
        match resp with
        | RemoteResponse.httpError =>
          match generateLocalAdvice formattedActions total avg high low with
          | some localAdvice =>
            { advice := some (AdviceData.record localAdvice), errorMsg := none
            , store := saveInsightsToFirestore store now (AdviceData.record localAdvice) }
          | none => { advice := none, errorMsg := some fallbackFailedMsg, store := store }
        | RemoteResponse.ok responseText =>
          match parseAdviceString (jsTrim (extractJsonText responseText)) with
          | some adviceData =>
            { advice := some (AdviceData.record adviceData), errorMsg := none
            , store := saveInsightsToFirestore store now (AdviceData.record adviceData) }
          | none =>
            let wrapped := AdviceData.raw responseText (messageInsights responseText)
            { advice := some wrapped, errorMsg := none
            , store := saveInsightsToFirestore store now wrapped }

/-! ## Helper lemmas -/

theorem selectNewActions_nil (ck : Option Int) : selectNewActions [] ck = [] := by
  cases ck <;> rfl

theorem selectNewActions_filter_eq (A : List Action) (T : Int) :
    selectNewActions A (some T)
      = A.filter (fun action =>
          match tsOrDate action with
          | none => false
          | some t => decide (t > T)) := rfl

theorem mem_selectNewActions {A : List Action} {T : Int} {a : Action} :
    a ∈ selectNewActions A (some T) ↔
      a ∈ A ∧ ∃ ts : Int, tsOrDate a = some ts ∧ T < ts := by
  rw [selectNewActions_filter_eq, List.mem_filter]
  constructor
  · rintro ⟨hmem, hpred⟩
    refine ⟨hmem, ?_⟩
    cases hts : tsOrDate a with
    | none => rw [hts] at hpred; cases hpred
    | some ts =>
      rw [hts] at hpred
      exact ⟨ts, rfl, of_decide_eq_true hpred⟩
  · rintro ⟨hmem, ts, hts, hgt⟩
    refine ⟨hmem, ?_⟩
    rw [hts]
    exact decide_eq_true hgt

theorem selectNewActions_idem (A : List Action) (T : Int) :
    selectNewActions (selectNewActions A (some T)) (some T)
      = selectNewActions A (some T) := by
  rw [selectNewActions_filter_eq A T, selectNewActions_filter_eq]
  apply List.filter_eq_self.mpr
  intro a ha
  exact List.of_mem_filter (p := fun action =>
    match tsOrDate action with
    | none => false
    | some t => decide (t > T)) ha

theorem count_filter_true {p : FormattedAction → Bool} {a : FormattedAction}
    (h : p a = true) (l : List FormattedAction) :
    List.count a (l.filter p) = List.count a l :=
  List.count_filter h

theorem count_filter_false {p : FormattedAction → Bool} {a : FormattedAction}
    (h : p a = false) (l : List FormattedAction) : List.count a (l.filter p) = 0 := by
  rw [List.count_eq_zero]
  intro hmem
  have := List.of_mem_filter hmem
  rw [h] at this
  cases this

theorem generateLocalAdvice_isSome (actions : List FormattedAction) (t v : ℚ)
    (high low : List FormattedAction) :
    (generateLocalAdvice actions t v high low).isSome := by
  cases high with
  | nil => simp [generateLocalAdvice]
  | cons h0 hs => simp [generateLocalAdvice]

/-! ## Claims -/

/-- C1: the checkpoint selection step returns exactly the order-preserving
subsequence of the input whose (fallback-resolved) timestamp is strictly
greater than the checkpoint `T`; it is idempotent when reapplied with the
same `T` to its own output; and with no checkpoint it returns the whole
input. -/
theorem C1_selectNewActions_spec (A : List Action) (T : Int) :
    (selectNewActions A (some T)).Sublist A ∧
    (∀ a : Action, a ∈ selectNewActions A (some T) ↔
        a ∈ A ∧ ∃ ts : Int, tsOrDate a = some ts ∧ T < ts) ∧
    selectNewActions (selectNewActions A (some T)) (some T)
      = selectNewActions A (some T) ∧
    selectNewActions A none = A := by
  refine ⟨?_, fun a => mem_selectNewActions, selectNewActions_idem A T, rfl⟩
  rw [selectNewActions_filter_eq]
  exact List.filter_sublist A

/-- Witness for C1 at a concrete action list and checkpoint. -/
theorem C1_selectNewActions_spec_witness :
    (selectNewActions [(⟨some "Drove to work", none, none, some 62, none, none,
        some 10, none, none, none⟩ : Action)] (some 5)).Sublist
      [⟨some "Drove to work", none, none, some 62, none, none, some 10, none, none, none⟩] ∧
    (∀ a : Action, a ∈ selectNewActions [(⟨some "Drove to work", none, none, some 62, none,
        none, some 10, none, none, none⟩ : Action)] (some 5) ↔
        a ∈ [(⟨some "Drove to work", none, none, some 62, none, none, some 10, none, none,
          none⟩ : Action)] ∧ ∃ ts : Int, tsOrDate a = some ts ∧ 5 < ts) ∧
    selectNewActions (selectNewActions [(⟨some "Drove to work", none, none, some 62, none,
        none, some 10, none, none, none⟩ : Action)] (some 5)) (some 5)
      = selectNewActions [(⟨some "Drove to work", none, none, some 62, none, none, some 10,
          none, none, none⟩ : Action)] (some 5) ∧
    selectNewActions [(⟨some "Drove to work", none, none, some 62, none, none, some 10,
        none, none, none⟩ : Action)] none
      = [⟨some "Drove to work", none, none, some 62, none, none, some 10, none, none, none⟩] :=
  C1_selectNewActions_spec
    [⟨some "Drove to work", none, none, some 62, none, none, some 10, none, none, none⟩] 5

/-- C4 counterexample: with the source's fixed thresholds (`low` means
`impactScore < 25`), the two scenario actions with scores `10` and `-5` both
land in the low-impact bucket — they do not fall into "neither bucket" as the
claim asserts. -/
theorem C4_counterexample :
    lowImpactActions [(⟨"Action A", 10, 1, "General"⟩ : FormattedAction),
        ⟨"Action B", -5, 2, "General"⟩]
      = [⟨"Action A", 10, 1, "General"⟩, ⟨"Action B", -5, 2, "General"⟩] ∧
    lowImpactActions [(⟨"Action A", 10, 1, "General"⟩ : FormattedAction),
        ⟨"Action B", -5, 2, "General"⟩] ≠ [] := by
  constructor
  · show List.filter _ _ = _
    rw [List.filter_cons_of_pos (by norm_num), List.filter_cons_of_pos (by norm_num)]
    rfl
  · intro hc
    rw [show lowImpactActions [(⟨"Action A", 10, 1, "General"⟩ : FormattedAction),
        ⟨"Action B", -5, 2, "General"⟩]
      = [⟨"Action A", 10, 1, "General"⟩, ⟨"Action B", -5, 2, "General"⟩] from by
        show List.filter _ _ = _
        rw [List.filter_cons_of_pos (by norm_num), List.filter_cons_of_pos (by norm_num)]
        rfl] at hc
    cases hc

/-- C4 (amended): for the two actions with impact scores `10` and `-5` the
aggregator yields `totalImpact = 5` and `meanImpact = 2.5`; neither action is
in the high-impact bucket, and — both scores being below `25` — both are in
the low-impact bucket. -/
theorem C4_scenario_two_actions :
    totalScore [(⟨"Action A", 10, 1, "General"⟩ : FormattedAction),
        ⟨"Action B", -5, 2, "General"⟩] = 5 ∧
    avgScore [(⟨"Action A", 10, 1, "General"⟩ : FormattedAction),
        ⟨"Action B", -5, 2, "General"⟩] = 2.5 ∧
    highImpactActions [(⟨"Action A", 10, 1, "General"⟩ : FormattedAction),
        ⟨"Action B", -5, 2, "General"⟩] = [] ∧
    lowImpactActions [(⟨"Action A", 10, 1, "General"⟩ : FormattedAction),
        ⟨"Action B", -5, 2, "General"⟩]
      = [⟨"Action A", 10, 1, "General"⟩, ⟨"Action B", -5, 2, "General"⟩] := by
  refine ⟨?_, ?_, ?_, ?_⟩
  · show List.foldl _ _ _ = _
    simp only [List.foldl]
    norm_num
  · show avgScore _ = _
    rw [avgScore]
    rw [if_pos (by norm_num)]
    rw [show totalScore [(⟨"Action A", 10, 1, "General"⟩ : FormattedAction),
        ⟨"Action B", -5, 2, "General"⟩] = 5 from by
      show List.foldl _ _ _ = _
      simp only [List.foldl]
      norm_num]
    norm_num
  · show List.filter _ _ = _
    rw [List.filter_cons_of_neg (by norm_num), List.filter_cons_of_neg (by norm_num)]
    rfl
  · show List.filter _ _ = _
    rw [List.filter_cons_of_pos (by norm_num), List.filter_cons_of_pos (by norm_num)]
    rfl

/-- C5: the high-impact (`> 50`) and low-impact (`< 25`) buckets are disjoint,
and together with the `25 ≤ score ≤ 50` remainder they partition the input,
each action counted exactly once. -/
theorem C5_buckets_partition (l : List FormattedAction) (a : FormattedAction) :
    (a ∈ highImpactActions l → a ∉ lowImpactActions l) ∧
    List.count a (highImpactActions l) + List.count a (lowImpactActions l)
      + List.count a (neitherImpactActions l) = List.count a l := by
  constructor
  · intro hhigh hlow
    have h1 : a.sustainabilityScore > 50 := by
      have := List.of_mem_filter hhigh; simpa using this
    have h2 : a.sustainabilityScore < 25 := by
      have := List.of_mem_filter hlow; simpa using this
    linarith
  · unfold highImpactActions lowImpactActions neitherImpactActions
    by_cases h1 : a.sustainabilityScore > 50
    · rw [count_filter_true (p := fun b : FormattedAction =>
          decide (b.sustainabilityScore > 50)) (decide_eq_true h1) l,
        count_filter_false (p := fun b : FormattedAction =>
          decide (b.sustainabilityScore < 25)) (decide_eq_false (by
            show ¬a.sustainabilityScore < 25
            linarith)) l,
        count_filter_false (p := fun b : FormattedAction =>
          decide (25 ≤ b.sustainabilityScore) && decide (b.sustainabilityScore ≤ 50)) (by
          show (decide (25 ≤ a.sustainabilityScore)
              && decide (a.sustainabilityScore ≤ 50)) = false
          rw [← Bool.decide_and]
          exact decide_eq_false (fun hc => absurd h1 (not_lt.mpr hc.2))) l]
      omega
    · by_cases h2 : a.sustainabilityScore < 25
      · rw [count_filter_false (p := fun b : FormattedAction =>
            decide (b.sustainabilityScore > 50)) (decide_eq_false h1) l,
          count_filter_true (p := fun b : FormattedAction =>
            decide (b.sustainabilityScore < 25)) (decide_eq_true h2) l,
          count_filter_false (p := fun b : FormattedAction =>
            decide (25 ≤ b.sustainabilityScore) && decide (b.sustainabilityScore ≤ 50)) (by
            show (decide (25 ≤ a.sustainabilityScore)
                && decide (a.sustainabilityScore ≤ 50)) = false
            rw [← Bool.decide_and]
            exact decide_eq_false (fun hc => absurd hc.1 (not_le.mpr h2))) l]
        omega
      · rw [count_filter_false (p := fun b : FormattedAction =>
            decide (b.sustainabilityScore > 50)) (decide_eq_false h1) l,
          count_filter_false (p := fun b : FormattedAction =>
            decide (b.sustainabilityScore < 25)) (decide_eq_false h2) l,
          count_filter_true (p := fun b : FormattedAction =>
            decide (25 ≤ b.sustainabilityScore) && decide (b.sustainabilityScore ≤ 50)) (by
            show (decide (25 ≤ a.sustainabilityScore)
                && decide (a.sustainabilityScore ≤ 50)) = true
            rw [← Bool.decide_and]
            exact decide_eq_true ⟨not_lt.mp h2, not_lt.mp h1⟩) l]
        omega

/-- Witness for C5 at a concrete list and element. -/
theorem C5_buckets_partition_witness :
    ((⟨"x", 60, 0, "Transportation"⟩ : FormattedAction)
        ∈ highImpactActions [⟨"x", 60, 0, "Transportation"⟩]
      → (⟨"x", 60, 0, "Transportation"⟩ : FormattedAction)
        ∉ lowImpactActions [⟨"x", 60, 0, "Transportation"⟩]) ∧
    List.count (⟨"x", 60, 0, "Transportation"⟩ : FormattedAction)
        (highImpactActions [⟨"x", 60, 0, "Transportation"⟩])
      + List.count (⟨"x", 60, 0, "Transportation"⟩ : FormattedAction)
          (lowImpactActions [⟨"x", 60, 0, "Transportation"⟩])
      + List.count (⟨"x", 60, 0, "Transportation"⟩ : FormattedAction)
          (neitherImpactActions [⟨"x", 60, 0, "Transportation"⟩])
      = List.count (⟨"x", 60, 0, "Transportation"⟩ : FormattedAction)
          [⟨"x", 60, 0, "Transportation"⟩] :=
  C5_buckets_partition [⟨"x", 60, 0, "Transportation"⟩] ⟨"x", 60, 0, "Transportation"⟩

/-- C6: the local fallback generator succeeds on every input — including a
zero or negative total and empty buckets — and returns an advice record; the
one partial operation it performs (`highImpactActions[0].action`) is guarded
by the non-emptiness test, so the embedded `Option` computation never
returns `none`. -/
theorem C6_generateLocalAdvice_total (actions : List FormattedAction)
    (totalScore avgScore : ℚ) (highImpactActions lowImpactActions : List FormattedAction) :
    ∃ r : AdviceRecord,
      generateLocalAdvice actions totalScore avgScore highImpactActions lowImpactActions
        = some r :=
  Option.isSome_iff_exists.mp
    (generateLocalAdvice_isSome actions totalScore avgScore highImpactActions lowImpactActions)

/-- C7: the local fallback generator is deterministic — it is a pure function
of the aggregate statistics alone (the embedding takes no clock, randomness
or other ambient input), so two invocations on equal inputs return equal
records. -/
theorem C7_generateLocalAdvice_deterministic
    (a₁ a₂ : List FormattedAction) (t₁ t₂ v₁ v₂ : ℚ)
    (h₁ h₂ l₁ l₂ : List FormattedAction)
    (ha : a₁ = a₂) (ht : t₁ = t₂) (hv : v₁ = v₂) (hh : h₁ = h₂) (hl : l₁ = l₂) :
    generateLocalAdvice a₁ t₁ v₁ h₁ l₁ = generateLocalAdvice a₂ t₂ v₂ h₂ l₂ := by
  subst ha; subst ht; subst hv; subst hh; subst hl; rfl

/-- Witness for C7 at concrete equal statistics. -/
theorem C7_generateLocalAdvice_deterministic_witness :
    generateLocalAdvice [⟨"a", 10, 1, "Food"⟩] 10 10 [] []
      = generateLocalAdvice [⟨"a", 10, 1, "Food"⟩] 10 10 [] [] :=
  C7_generateLocalAdvice_deterministic [⟨"a", 10, 1, "Food"⟩] [⟨"a", 10, 1, "Food"⟩]
    10 10 10 10 [] [] [] [] rfl rfl rfl rfl rfl

/-- C8: serializing an advice record to its storage blob and parsing the blob
back yields the record unchanged in all three fields. -/
theorem C8_advice_roundtrip (r : AdviceRecord) :
    parseAdviceString (stringifyAdvice r) = some r :=
  parseAdviceString_stringify r

/-- C9: every persisting write stores the advice blob under the fresh
timestamp key and advances the `mostRecentInsightsTimestamp` pointer to that
same key, so after a completed cycle the pointer equals the key of the
inserted record. -/
theorem C9_checkpoint_pointer (d : UserDoc) (now : Int) (a : AdviceData) :
    (saveInsightsToFirestore (some d) now a).bind
        (fun x => x.mostRecentInsightsTimestamp) = some now ∧
    (saveInsightsToFirestore (some d) now a).bind
        (fun x => x.previousAdvice.lookup now) = some (stringifyData a) := by
  constructor
  · rfl
  · simp [saveInsightsToFirestore, List.lookup]

/-- C10: with a checkpoint present, an action carrying no timestamp at all
(neither `timestamp` nor `date`) is silently dropped by the selection step —
it is never classified as new. -/
theorem C10_missing_timestamp_excluded (A : List Action) (T : Int) (a : Action)
    (h : tsOrDate a = none) : a ∉ selectNewActions A (some T) := by
  intro hmem
  obtain ⟨-, ts, hts, -⟩ := mem_selectNewActions.mp hmem
  rw [h] at hts
  cases hts

/-- Witness for C10: a timestampless action is dropped from a concrete list. -/
theorem C10_missing_timestamp_excluded_witness :
    (⟨some "no ts", none, none, some 3, none, none, none, none, none, none⟩ : Action)
      ∉ selectNewActions
          [⟨some "no ts", none, none, some 3, none, none, none, none, none, none⟩] (some 0) :=
  C10_missing_timestamp_excluded
    [⟨some "no ts", none, none, some 3, none, none, none, none, none, none⟩] 0
    ⟨some "no ts", none, none, some 3, none, none, none, none, none, none⟩ rfl

/-! ## Pipeline branch lemmas -/

/-- The formatted new-action list the pipeline aggregates over. -/
def pipelineFormatted (A : List Action) (store : Option UserDoc) (now : Int) :
    List FormattedAction :=
  (selectNewActions A (store.bind fun d => d.mostRecentInsightsTimestamp)).map
    (formatAction now)

theorem handleGetAdvice_emptyList (store : Option UserDoc) (key : Bool)
    (resp : RemoteResponse) (now : Int) :
    handleGetAdvice [] store key resp now
      = { advice := none, errorMsg := some noActionsMsg, store := store } := by
  unfold handleGetAdvice
  norm_num

theorem handleGetAdvice_noNew (A : List Action) (d : UserDoc) (t : Int) (key : Bool)
    (resp : RemoteResponse) (now : Int)
    (hA : A.length ≠ 0) (hck : d.mostRecentInsightsTimestamp = some t)
    (hsel : selectNewActions A (some t) = []) :
    handleGetAdvice A (some d) key resp now
      = { advice := (priorAdviceFor d t).map AdviceData.record
        , errorMsg := some noNewActionsMsg, store := some d } := by
  unfold handleGetAdvice
  rw [if_neg hA]
  simp only [Option.some_bind, hck, hsel, List.length_nil]
  norm_num

theorem handleGetAdvice_httpError (A : List Action) (store : Option UserDoc)
    (now : Int) (r : AdviceRecord)
    (hne : selectNewActions A (store.bind fun d => d.mostRecentInsightsTimestamp) ≠ [])
    (hgen : generateLocalAdvice (pipelineFormatted A store now)
        (totalScore (pipelineFormatted A store now))
        (avgScore (pipelineFormatted A store now))
        (highImpactActions (pipelineFormatted A store now))
        (lowImpactActions (pipelineFormatted A store now)) = some r) :
    handleGetAdvice A store true RemoteResponse.httpError now
      = { advice := some (AdviceData.record r), errorMsg := none
        , store := saveInsightsToFirestore store now (AdviceData.record r) } := by
  have hA : A.length ≠ 0 := by
    intro h0
    rw [List.length_eq_zero.mp h0, selectNewActions_nil] at hne
    exact hne rfl
  have hlen : (selectNewActions A
      (store.bind fun d => d.mostRecentInsightsTimestamp)).length ≠ 0 := by
    intro h0
    exact hne (List.length_eq_zero.mp h0)
  unfold handleGetAdvice
  rw [if_neg hA, if_neg hlen]
  unfold pipelineFormatted at hgen
  simp only [Bool.not_true, Bool.false_eq_true, if_false, hgen]

theorem handleGetAdvice_parseFail (A : List Action) (store : Option UserDoc)
    (now : Int) (body : String)
    (hne : selectNewActions A (store.bind fun d => d.mostRecentInsightsTimestamp) ≠ [])
    (hbody : parseAdviceString (jsTrim (extractJsonText body)) = none) :
    handleGetAdvice A store true (RemoteResponse.ok body) now
      = { advice := some (AdviceData.raw body (messageInsights body))
        , errorMsg := none
        , store := saveInsightsToFirestore store now
            (AdviceData.raw body (messageInsights body)) } := by
  have hA : A.length ≠ 0 := by
    intro h0
    rw [List.length_eq_zero.mp h0, selectNewActions_nil] at hne
    exact hne rfl
  have hlen : (selectNewActions A
      (store.bind fun d => d.mostRecentInsightsTimestamp)).length ≠ 0 := by
    intro h0
    exact hne (List.length_eq_zero.mp h0)
  unfold handleGetAdvice
  rw [if_neg hA, if_neg hlen]
  simp only [Bool.not_true, Bool.false_eq_true, if_false, hbody]

theorem priorAdviceFor_exact (d : UserDoc) (t : Int) (r : AdviceRecord)
    (h : d.previousAdvice.lookup t = some (stringifyAdvice r)) :
    priorAdviceFor d t = some r := by
  unfold priorAdviceFor
  rw [h]
  exact parseAdviceString_stringify r

theorem priorAdviceFor_fallback (d : UserDoc) (t k : Int) (r : AdviceRecord)
    (h1 : d.previousAdvice.lookup t = none) (h2 : maxKey d.previousAdvice = some k)
    (h3 : d.previousAdvice.lookup k = some (stringifyAdvice r)) :
    priorAdviceFor d t = some r := by
  unfold priorAdviceFor
  rw [h1, h2]
  show (match d.previousAdvice.lookup k with
    | some blob => parseAdviceString blob
    | none => none) = some r
  rw [h3]
  exact parseAdviceString_stringify r

/-! ## Claims C2 and C3 -/

/-- C2 counterexample: with an empty action list but an existing checkpoint
(and a stored advice record under it), the selection subset is empty and a
checkpoint exists — yet the pipeline signals the hard no-actions error with
no advice, instead of the informational result carrying the stored record. -/
theorem C2_counterexample :
    selectNewActions [] (some 5) = [] ∧
    (⟨[(5, stringifyAdvice ⟨["i"], ["r"], "s"⟩)], some 5⟩ : UserDoc).mostRecentInsightsTimestamp
      = some 5 ∧
    (handleGetAdvice [] (some ⟨[(5, stringifyAdvice ⟨["i"], ["r"], "s"⟩)], some 5⟩) true
        RemoteResponse.httpError 10).errorMsg = some noActionsMsg ∧
    (handleGetAdvice [] (some ⟨[(5, stringifyAdvice ⟨["i"], ["r"], "s"⟩)], some 5⟩) true
        RemoteResponse.httpError 10).advice = none ∧
    noActionsMsg ≠ noNewActionsMsg := by
  refine ⟨rfl, rfl, ?_, ?_, ?_⟩
  · rw [handleGetAdvice_emptyList]
  · rw [handleGetAdvice_emptyList]
  · unfold noActionsMsg noNewActionsMsg
    decide

/-- C2 (amended): when the selected subset is empty, a checkpoint exists and
the submitted action list is nonempty, the pipeline skips the generator and
returns the stored record under the checkpoint key — or under the greatest
key when the exact key is missing — alongside the informational
no-new-actions message; when the action list itself is empty (the only way
the subset can be empty without a checkpoint) it signals the distinct hard
no-actions error, and the two messages are never the same. -/
theorem C2_empty_subset_behaviour
    (A : List Action) (d : UserDoc) (t : Int) (key : Bool) (resp : RemoteResponse)
    (now : Int) (r : AdviceRecord)
    (hA : A ≠ [])
    (hck : d.mostRecentInsightsTimestamp = some t)
    (hsel : selectNewActions A (some t) = []) :
    (handleGetAdvice A (some d) key resp now).errorMsg = some noNewActionsMsg ∧
    (handleGetAdvice A (some d) key resp now).advice
      = (priorAdviceFor d t).map AdviceData.record ∧
    (d.previousAdvice.lookup t = some (stringifyAdvice r) → priorAdviceFor d t = some r) ∧
    (∀ k : Int, d.previousAdvice.lookup t = none → maxKey d.previousAdvice = some k →
      d.previousAdvice.lookup k = some (stringifyAdvice r) → priorAdviceFor d t = some r) ∧
    (handleGetAdvice [] (some d) key resp now).errorMsg = some noActionsMsg ∧
    (handleGetAdvice [] (some d) key resp now).advice = none ∧
    noNewActionsMsg ≠ noActionsMsg := by
  have hA0 : A.length ≠ 0 := fun h0 => hA (List.length_eq_zero.mp h0)
  refine ⟨?_, ?_, fun h => priorAdviceFor_exact d t r h,
    fun k h1 h2 h3 => priorAdviceFor_fallback d t k r h1 h2 h3, ?_, ?_, ?_⟩
  · rw [handleGetAdvice_noNew A d t key resp now hA0 hck hsel]
  · rw [handleGetAdvice_noNew A d t key resp now hA0 hck hsel]
  · rw [handleGetAdvice_emptyList]
  · rw [handleGetAdvice_emptyList]
  · unfold noNewActionsMsg noActionsMsg
    decide

/-- Witness for C2 (amended) at a concrete store and action list. -/
theorem C2_empty_subset_behaviour_witness :
    (handleGetAdvice [⟨some "old", none, none, some 3, none, none, some 2, none, none, none⟩]
        (some ⟨[(5, stringifyAdvice ⟨["i"], ["r"], "s"⟩)], some 5⟩) false
        RemoteResponse.httpError 10).errorMsg = some noNewActionsMsg ∧
    (handleGetAdvice [⟨some "old", none, none, some 3, none, none, some 2, none, none, none⟩]
        (some ⟨[(5, stringifyAdvice ⟨["i"], ["r"], "s"⟩)], some 5⟩) false
        RemoteResponse.httpError 10).advice
      = (priorAdviceFor ⟨[(5, stringifyAdvice ⟨["i"], ["r"], "s"⟩)], some 5⟩ 5).map
          AdviceData.record ∧
    ((⟨[(5, stringifyAdvice ⟨["i"], ["r"], "s"⟩)], some 5⟩ : UserDoc).previousAdvice.lookup 5
        = some (stringifyAdvice ⟨["i"], ["r"], "s"⟩)
      → priorAdviceFor ⟨[(5, stringifyAdvice ⟨["i"], ["r"], "s"⟩)], some 5⟩ 5
          = some ⟨["i"], ["r"], "s"⟩) ∧
    (∀ k : Int,
      (⟨[(5, stringifyAdvice ⟨["i"], ["r"], "s"⟩)], some 5⟩ : UserDoc).previousAdvice.lookup 5
          = none
      → maxKey (⟨[(5, stringifyAdvice ⟨["i"], ["r"], "s"⟩)], some 5⟩ : UserDoc).previousAdvice
          = some k
      → (⟨[(5, stringifyAdvice ⟨["i"], ["r"], "s"⟩)], some 5⟩ : UserDoc).previousAdvice.lookup k
          = some (stringifyAdvice ⟨["i"], ["r"], "s"⟩)
      → priorAdviceFor ⟨[(5, stringifyAdvice ⟨["i"], ["r"], "s"⟩)], some 5⟩ 5
          = some ⟨["i"], ["r"], "s"⟩) ∧
    (handleGetAdvice [] (some ⟨[(5, stringifyAdvice ⟨["i"], ["r"], "s"⟩)], some 5⟩) false
        RemoteResponse.httpError 10).errorMsg = some noActionsMsg ∧
    (handleGetAdvice [] (some ⟨[(5, stringifyAdvice ⟨["i"], ["r"], "s"⟩)], some 5⟩) false
        RemoteResponse.httpError 10).advice = none ∧
    noNewActionsMsg ≠ noActionsMsg :=
  C2_empty_subset_behaviour
    [⟨some "old", none, none, some 3, none, none, some 2, none, none, none⟩]
    ⟨[(5, stringifyAdvice ⟨["i"], ["r"], "s"⟩)], some 5⟩ 5 false RemoteResponse.httpError 10
    ⟨["i"], ["r"], "s"⟩ (by simp) rfl rfl

/-- C3 counterexample: with one new action and an OK remote response whose
body is not JSON, the pipeline surfaces the raw-text wrap — not the local
fallback generator's record. -/
theorem C3_counterexample :
    (handleGetAdvice
        [⟨some "Drove to work", none, none, some 10, none, none, some 10, none, none, none⟩]
        none true (RemoteResponse.ok "not json") 99).advice
      = some (AdviceData.raw "not json" ["not json"]) ∧
    (handleGetAdvice
        [⟨some "Drove to work", none, none, some 10, none, none, some 10, none, none, none⟩]
        none true (RemoteResponse.ok "not json") 99).advice
      ≠ (generateLocalAdvice
          (pipelineFormatted
            [⟨some "Drove to work", none, none, some 10, none, none, some 10, none, none, none⟩]
            none 99)
          (totalScore (pipelineFormatted
            [⟨some "Drove to work", none, none, some 10, none, none, some 10, none, none, none⟩]
            none 99))
          (avgScore (pipelineFormatted
            [⟨some "Drove to work", none, none, some 10, none, none, some 10, none, none, none⟩]
            none 99))
          (highImpactActions (pipelineFormatted
            [⟨some "Drove to work", none, none, some 10, none, none, some 10, none, none, none⟩]
            none 99))
          (lowImpactActions (pipelineFormatted
            [⟨some "Drove to work", none, none, some 10, none, none, some 10, none, none, none⟩]
            none 99))).map AdviceData.record := by
  have hres := handleGetAdvice_parseFail
    [⟨some "Drove to work", none, none, some 10, none, none, some 10, none, none, none⟩]
    none 99 "not json" (by intro hc; cases hc) (by rfl)
  rw [show messageInsights "not json" = ["not json"] from rfl] at hres
  refine ⟨by rw [hres], ?_⟩
  rw [hres]
  cases hgen : generateLocalAdvice
      (pipelineFormatted
        [⟨some "Drove to work", none, none, some 10, none, none, some 10, none, none, none⟩]
        none 99)
      (totalScore (pipelineFormatted
        [⟨some "Drove to work", none, none, some 10, none, none, some 10, none, none, none⟩]
        none 99))
      (avgScore (pipelineFormatted
        [⟨some "Drove to work", none, none, some 10, none, none, some 10, none, none, none⟩]
        none 99))
      (highImpactActions (pipelineFormatted
        [⟨some "Drove to work", none, none, some 10, none, none, some 10, none, none, none⟩]
        none 99))
      (lowImpactActions (pipelineFormatted
        [⟨some "Drove to work", none, none, some 10, none, none, some 10, none, none, none⟩]
        none 99)) with
  | none => simp
  | some r => simp

/-- C3 (amended): a non-2xx remote response makes the pipeline produce the
advice via the deterministic local fallback generator; an OK response whose
body fails to parse as JSON after code-fence stripping is not routed to the
local generator but wrapped as-is into the advice, its first five non-blank
lines becoming the insights. -/
theorem C3_remote_failure_behaviour
    (A : List Action) (store : Option UserDoc) (now : Int) (body : String)
    (hne : selectNewActions A (store.bind fun d => d.mostRecentInsightsTimestamp) ≠ [])
    (hbody : parseAdviceString (jsTrim (extractJsonText body)) = none) :
    (handleGetAdvice A store true RemoteResponse.httpError now).advice
      = (generateLocalAdvice (pipelineFormatted A store now)
          (totalScore (pipelineFormatted A store now))
          (avgScore (pipelineFormatted A store now))
          (highImpactActions (pipelineFormatted A store now))
          (lowImpactActions (pipelineFormatted A store now))).map AdviceData.record ∧
    (handleGetAdvice A store true (RemoteResponse.ok body) now).advice
      = some (AdviceData.raw body (messageInsights body)) := by
  constructor
  · obtain ⟨r, hr⟩ := Option.isSome_iff_exists.mp
      (generateLocalAdvice_isSome (pipelineFormatted A store now)
        (totalScore (pipelineFormatted A store now))
        (avgScore (pipelineFormatted A store now))
        (highImpactActions (pipelineFormatted A store now))
        (lowImpactActions (pipelineFormatted A store now)))
    rw [handleGetAdvice_httpError A store now r hne hr, hr]
    rfl
  · rw [handleGetAdvice_parseFail A store now body hne hbody]

/-- Witness for C3 (amended) at a concrete action list and body. -/
theorem C3_remote_failure_behaviour_witness :
    (handleGetAdvice
        [⟨some "Biked", none, none, some 3, none, none, some 7, none, none, none⟩]
        none true RemoteResponse.httpError 42).advice
      = (generateLocalAdvice
          (pipelineFormatted
            [⟨some "Biked", none, none, some 3, none, none, some 7, none, none, none⟩] none 42)
          (totalScore (pipelineFormatted
            [⟨some "Biked", none, none, some 3, none, none, some 7, none, none, none⟩] none 42))
          (avgScore (pipelineFormatted
            [⟨some "Biked", none, none, some 3, none, none, some 7, none, none, none⟩] none 42))
          (highImpactActions (pipelineFormatted
            [⟨some "Biked", none, none, some 3, none, none, some 7, none, none, none⟩] none 42))
          (lowImpactActions (pipelineFormatted
            [⟨some "Biked", none, none, some 3, none, none, some 7, none, none, none⟩]
            none 42))).map AdviceData.record ∧
    (handleGetAdvice
        [⟨some "Biked", none, none, some 3, none, none, some 7, none, none, none⟩]
        none true (RemoteResponse.ok "oops")
        42).advice
      = some (AdviceData.raw "oops" (messageInsights "oops")) :=
  C3_remote_failure_behaviour
    [⟨some "Biked", none, none, some 3, none, none, some 7, none, none, none⟩]
    none 42 "oops" (by intro hc; cases hc) (by rfl)

end CarbonWise
